import Mathlib

/-!
Shallow embedding of the Valley Farm 3D simulation state machine
(src/src/App.tsx).  The rendering layer is out of scope; the embedded
operations are the state transitions performed by `handlePlotClick`,
`handleCropClick`, `nextDay` and the tool-selection buttons.  The two
external sources of nondeterminism in the source — `Math.random()`
choosing the crop type and `Date.now()` stamping the crop id — are
modelled as explicit parameters (`ty` and `now`) of the plant action.
-/

/-- Crop types, from the `CropData.type` union in the source. -/
inductive CropType where
  | carrot
  | tomato
  | corn
  | turnip
deriving DecidableEq

/-- Seasons, from the `GameState.season` union in the source. -/
inductive Season where
  | Spring
  | Summer
  | Fall
  | Winter
deriving DecidableEq

/-- Tools, from the `GameState.selectedTool` union in the source. -/
inductive Tool where
  | hoe
  | water
  | seed
  | harvest
deriving DecidableEq

/-- `CropData` from the source: id, grid position, type, growth stage,
day of planting. -/
structure CropData where
  id : String
  x : Int
  z : Int
  type : CropType
  stage : Nat
  plantedDay : Nat
deriving DecidableEq

/-- `GameState` from the source.  `tiledPlots` is the `Set<string>` of
tilled-plot keys, kept as a duplicate-free list of keys in insertion
order (the hoe branch only inserts a key after checking absence). -/
structure GameState where
  day : Nat
  season : Season
  gold : Int
  energy : Int
  selectedTool : Tool
  crops : List CropData
  tiledPlots : List String
deriving DecidableEq

/-- `CROP_PRICES` constant from the source. -/
def CROP_PRICES : CropType → Int
  | .carrot => 35
  | .tomato => 60
  | .corn => 50
  | .turnip => 40

/-- The initial `useState` value in `App`. -/
def initialState : GameState :=
  { day := 1
    season := .Spring
    gold := 500
    energy := 100
    selectedTool := .hoe
    crops := []
    tiledPlots := [] }

/-- The template literal `${x},${z}` used as tilled-plot key. -/
def plotKey (x z : Int) : String :=
  toString x ++ "," ++ toString z

/-- The template literal `${x}-${z}-${Date.now()}` used as crop id;
`now` stands for the value of `Date.now()` at planting time. -/
def cropId (x z : Int) (now : Nat) : String :=
  toString x ++ "-" ++ toString z ++ "-" ++ toString now

/-- `gameState.crops.find(c => c.x === x && c.z === z)`. -/
def findCropAt (crops : List CropData) (x z : Int) : Option CropData :=
  crops.find? fun c => c.x == x && c.z == z

/-- The seasons array local to `nextDay`. -/
def seasonsList : List Season := [.Spring, .Summer, .Fall, .Winter]

/-- `seasons[Math.floor((newDay - 1) / 28) % 4]`. -/
def seasonOfDay (newDay : Nat) : Season :=
  seasonsList.get ⟨(newDay - 1) / 28 % 4, by
    have h : (newDay - 1) / 28 % 4 < 4 := Nat.mod_lt _ (by decide)
    simpa [seasonsList] using h⟩

/-- `handlePlotClick(x, z)` from `FarmScene`, with the random crop type
`ty` and the clock reading `now` as explicit inputs (only the seed
branch consumes them). -/
def handlePlotClick (s : GameState) (x z : Int) (ty : CropType) (now : Nat) :
    GameState :=
  if s.selectedTool = .hoe ∧ plotKey x z ∉ s.tiledPlots ∧ 5 ≤ s.energy then
    { s with
      tiledPlots := s.tiledPlots ++ [plotKey x z]
      energy := s.energy - 5 }
  else if s.selectedTool = .seed ∧ plotKey x z ∈ s.tiledPlots ∧
      findCropAt s.crops x z = none ∧ 20 ≤ s.gold ∧ 2 ≤ s.energy then
    { s with
      crops := s.crops ++
        [{ id := cropId x z now, x := x, z := z, type := ty, stage := 0,
           plantedDay := s.day }]
      gold := s.gold - 20
      energy := s.energy - 2 }
  else
    match findCropAt s.crops x z with
    | some ec =>
      if s.selectedTool = .water ∧ ec.stage < 3 ∧ 3 ≤ s.energy then
        { s with
          crops := s.crops.map fun c =>
            if c.id = ec.id then { c with stage := min (c.stage + 1) 3 } else c
          energy := s.energy - 3 }
      else s
    | none => s

/-- `handleCropClick(crop)` from `FarmScene`. -/
def handleCropClick (s : GameState) (crop : CropData) : GameState :=
  if s.selectedTool = .harvest ∧ crop.stage = 3 then
    { s with
      crops := s.crops.filter fun c => c.id != crop.id
      gold := s.gold + CROP_PRICES crop.type }
  else if s.selectedTool = .water ∧ crop.stage < 3 ∧ 3 ≤ s.energy then
    { s with
      crops := s.crops.map fun c =>
        if c.id = crop.id then { c with stage := min (c.stage + 1) 3 } else c
      energy := s.energy - 3 }
  else s

/-- The `onClick` of a `ToolButton`: `{...prev, selectedTool: tool}`. -/
def selectTool (s : GameState) (t : Tool) : GameState :=
  { s with selectedTool := t }

/-- `nextDay` from `App`. -/
def nextDay (s : GameState) : GameState :=
  let newDay := s.day + 1
  { s with
    day := newDay
    season := seasonOfDay newDay
    energy := 100 }

/-- States reachable from the initial state by the user-triggered
operations.  A crop click is only ever issued by the renderer for a crop
of the current `crops` list. -/
inductive Reachable : GameState → Prop where
  | init : Reachable initialState
  | tool {s : GameState} (t : Tool) : Reachable s → Reachable (selectTool s t)
  | plot {s : GameState} (x z : Int) (ty : CropType) (now : Nat) :
      Reachable s → Reachable (handlePlotClick s x z ty now)
  | crop {s : GameState} (c : CropData) :
      Reachable s → c ∈ s.crops → Reachable (handleCropClick s c)
  | sleep {s : GameState} : Reachable s → Reachable (nextDay s)

/-! ## Day and season advance -/

/-- The season schedule is 112-day periodic (for days ≥ 1). -/
lemma seasonOfDay_period (d : Nat) : seasonOfDay (d + 113) = seasonOfDay (d + 1) := by
  unfold seasonOfDay
  have h : (d + 113 - 1) / 28 % 4 = (d + 1 - 1) / 28 % 4 := by omega
  exact congrArg seasonsList.get (Fin.ext h)

/-- C2: `advanceDay` (the source's `nextDay`) unconditionally increments the
day by 1, recomputes the season as `seasons[(newDay - 1) / 28 % 4]`, resets
energy to 100 and leaves gold, crops and tilled plots unchanged; from day 1
the season stays Spring through day 28, first becomes Summer at day 29, and
the four-season cycle completes every 112 days. -/
theorem nextDay_spec :
    (∀ s : GameState,
      nextDay s =
        { s with day := s.day + 1, season := seasonOfDay (s.day + 1), energy := 100 }) ∧
    (∀ s : GameState,
      (nextDay s).day = s.day + 1 ∧
      (nextDay s).season = seasonOfDay (s.day + 1) ∧
      (nextDay s).energy = 100 ∧
      (nextDay s).gold = s.gold ∧
      (nextDay s).crops = s.crops ∧
      (nextDay s).tiledPlots = s.tiledPlots ∧
      (nextDay s).selectedTool = s.selectedTool) ∧
    (∀ k : Fin 28,
      (nextDay^[k.val] initialState).season = Season.Spring ∧
      (nextDay^[k.val] initialState).day = k.val + 1) ∧
    (nextDay^[28] initialState).day = 29 ∧
    (nextDay^[28] initialState).season = Season.Summer ∧
    (nextDay^[56] initialState).season = Season.Fall ∧
    (nextDay^[84] initialState).season = Season.Winter ∧
    (nextDay^[112] initialState).season = Season.Spring ∧
    (nextDay^[112] initialState).day = 113 ∧
    (∀ d : Nat, seasonOfDay (d + 113) = seasonOfDay (d + 1)) :=
  ⟨fun _ => rfl, fun _ => ⟨rfl, rfl, rfl, rfl, rfl, rfl, rfl⟩, by decide,
    by decide, by decide, by decide, by decide, by decide, by decide,
    seasonOfDay_period⟩

/-! ## Crop id generation -/

/-- Till (0,0) from the initial state (the tool starts as the hoe). -/
def runTill : GameState := handlePlotClick initialState 0 0 CropType.carrot 7

/-- Switch to the seed tool and plant at (0,0) with `Date.now() = 7`. -/
def runPlant1 : GameState :=
  handlePlotClick (selectTool runTill Tool.seed) 0 0 CropType.carrot 7

/-- Switch to the water tool and water (0,0) three times, maturing the crop. -/
def runWatered : GameState :=
  handlePlotClick
    (handlePlotClick
      (handlePlotClick (selectTool runPlant1 Tool.water) 0 0 CropType.carrot 7)
      0 0 CropType.carrot 7)
    0 0 CropType.carrot 7

/-- The matured crop as it stands in `runWatered`. -/
def matureCrop : CropData :=
  { id := cropId 0 0 7, x := 0, z := 0, type := CropType.carrot, stage := 3,
    plantedDay := 1 }

/-- Switch to the harvest tool and click the mature crop. -/
def runHarvested : GameState :=
  handleCropClick (selectTool runWatered Tool.harvest) matureCrop

/-- Switch back to the seed tool and replant (0,0), still at `Date.now() = 7`. -/
def runPlant2 : GameState :=
  handlePlotClick (selectTool runHarvested Tool.seed) 0 0 CropType.tomato 7

/-- C7: crop ids are NOT unique across a run.  The id is
`${x}-${z}-${Date.now()}`, so replanting a plot in the same millisecond in
which its previous crop was planted reuses the id: the run
till(0,0); plant(0,0) at clock 7; water ×3; harvest; plant(0,0) at clock 7
assigns the id "0-0-7" to two distinct crops.  The run is reachable. -/
theorem crop_id_collision :
    runPlant1.crops =
      [{ id := "0-0-7", x := 0, z := 0, type := CropType.carrot, stage := 0,
         plantedDay := 1 }] ∧
    runPlant2.crops =
      [{ id := "0-0-7", x := 0, z := 0, type := CropType.tomato, stage := 0,
         plantedDay := 1 }] ∧
    ({ id := "0-0-7", x := 0, z := 0, type := CropType.carrot, stage := 0,
       plantedDay := 1 } : CropData).id =
      ({ id := "0-0-7", x := 0, z := 0, type := CropType.tomato, stage := 0,
         plantedDay := 1 } : CropData).id ∧
    ({ id := "0-0-7", x := 0, z := 0, type := CropType.carrot, stage := 0,
       plantedDay := 1 } : CropData) ≠
      { id := "0-0-7", x := 0, z := 0, type := CropType.tomato, stage := 0,
        plantedDay := 1 } ∧
    Reachable runPlant2 := by
  refine ⟨by decide, by decide, by decide, by decide, ?_⟩
  exact Reachable.plot 0 0 CropType.tomato 7
    (Reachable.tool Tool.seed
      (Reachable.crop matureCrop
        (Reachable.tool Tool.harvest
          (Reachable.plot 0 0 CropType.carrot 7
            (Reachable.plot 0 0 CropType.carrot 7
              (Reachable.plot 0 0 CropType.carrot 7
                (Reachable.tool Tool.water
                  (Reachable.plot 0 0 CropType.carrot 7
                    (Reachable.tool Tool.seed
                      (Reachable.plot 0 0 CropType.carrot 7
                        Reachable.init))))))))
        (by decide)))

/-! ## Branch characterizations of the click handlers -/

/-- With the hoe selected, a plot click reduces to the till rule. -/
lemma plotClick_hoe (s : GameState) (x z : Int) (ty : CropType) (now : Nat)
    (htool : s.selectedTool = Tool.hoe) :
    handlePlotClick s x z ty now =
      if plotKey x z ∉ s.tiledPlots ∧ 5 ≤ s.energy then
        { s with tiledPlots := s.tiledPlots ++ [plotKey x z],
                 energy := s.energy - 5 }
      else s := by
  unfold handlePlotClick
  by_cases hc : plotKey x z ∉ s.tiledPlots ∧ 5 ≤ s.energy
  · rw [if_pos ⟨htool, hc⟩, if_pos hc]
  · rw [if_neg (fun h => hc h.2), if_neg hc,
      if_neg (fun h => by rw [htool] at h; exact absurd h.1 (by decide))]
    split
    · rename_i ec heq
      rw [if_neg (fun h => by rw [htool] at h; exact absurd h.1 (by decide))]
    · rfl

/-- With the seed tool selected, a plot click reduces to the plant rule. -/
lemma plotClick_seed (s : GameState) (x z : Int) (ty : CropType) (now : Nat)
    (htool : s.selectedTool = Tool.seed) :
    handlePlotClick s x z ty now =
      if plotKey x z ∈ s.tiledPlots ∧ findCropAt s.crops x z = none ∧
          20 ≤ s.gold ∧ 2 ≤ s.energy then
        { s with
          crops := s.crops ++
            [{ id := cropId x z now, x := x, z := z, type := ty, stage := 0,
               plantedDay := s.day }]
          gold := s.gold - 20
          energy := s.energy - 2 }
      else s := by
  unfold handlePlotClick
  rw [if_neg (fun h => by rw [htool] at h; exact absurd h.1 (by decide))]
  by_cases hc : plotKey x z ∈ s.tiledPlots ∧ findCropAt s.crops x z = none ∧
      20 ≤ s.gold ∧ 2 ≤ s.energy
  · rw [if_pos ⟨htool, hc⟩, if_pos hc]
  · rw [if_neg (fun h => hc h.2), if_neg hc]
    split
    · rename_i ec heq
      rw [if_neg (fun h => by rw [htool] at h; exact absurd h.1 (by decide))]
    · rfl

/-- With the water tool selected and a crop found at the clicked plot, a
plot click reduces to the watering rule for that crop. -/
lemma plotClick_water (s : GameState) (x z : Int) (ty : CropType) (now : Nat)
    (c : CropData) (htool : s.selectedTool = Tool.water)
    (hfind : findCropAt s.crops x z = some c) :
    handlePlotClick s x z ty now =
      if c.stage < 3 ∧ 3 ≤ s.energy then
        { s with
          crops := s.crops.map fun cr =>
            if cr.id = c.id then { cr with stage := min (cr.stage + 1) 3 }
            else cr
          energy := s.energy - 3 }
      else s := by
  unfold handlePlotClick
  rw [if_neg (fun h => by rw [htool] at h; exact absurd h.1 (by decide)),
    if_neg (fun h => by rw [htool] at h; exact absurd h.1 (by decide))]
  split
  · rename_i ec heq
    rw [hfind] at heq
    injection heq with heq'
    subst heq'
    by_cases hc : c.stage < 3 ∧ 3 ≤ s.energy
    · rw [if_pos ⟨htool, hc⟩, if_pos hc]
    · rw [if_neg (fun h => hc h.2), if_neg hc]
  · rename_i heq
    rw [hfind] at heq
    exact absurd heq (by simp)

/-- With the water tool selected and no crop at the clicked plot, a plot
click is a no-op. -/
lemma plotClick_water_none (s : GameState) (x z : Int) (ty : CropType)
    (now : Nat) (htool : s.selectedTool = Tool.water)
    (hfind : findCropAt s.crops x z = none) :
    handlePlotClick s x z ty now = s := by
  unfold handlePlotClick
  rw [if_neg (fun h => by rw [htool] at h; exact absurd h.1 (by decide)),
    if_neg (fun h => by rw [htool] at h; exact absurd h.1 (by decide)),
    hfind]

/-- With the harvest tool selected, a plot click is a no-op. -/
lemma plotClick_harvest (s : GameState) (x z : Int) (ty : CropType)
    (now : Nat) (htool : s.selectedTool = Tool.harvest) :
    handlePlotClick s x z ty now = s := by
  unfold handlePlotClick
  rw [if_neg (fun h => by rw [htool] at h; exact absurd h.1 (by decide)),
    if_neg (fun h => by rw [htool] at h; exact absurd h.1 (by decide))]
  split
  · rename_i ec heq
    rw [if_neg (fun h => by rw [htool] at h; exact absurd h.1 (by decide))]
  · rfl

/-- With the harvest tool selected, a crop click reduces to the harvest
rule. -/
lemma cropClick_harvest (s : GameState) (c : CropData)
    (htool : s.selectedTool = Tool.harvest) :
    handleCropClick s c =
      if c.stage = 3 then
        { s with
          crops := s.crops.filter fun cr => cr.id != c.id
          gold := s.gold + CROP_PRICES c.type }
      else s := by
  unfold handleCropClick
  by_cases hc : c.stage = 3
  · rw [if_pos ⟨htool, hc⟩, if_pos hc]
  · rw [if_neg (fun h => hc h.2), if_neg hc,
      if_neg (fun h => by rw [htool] at h; exact absurd h.1 (by decide))]

/-- With the water tool selected, a crop click reduces to the watering
rule. -/
lemma cropClick_water (s : GameState) (c : CropData)
    (htool : s.selectedTool = Tool.water) :
    handleCropClick s c =
      if c.stage < 3 ∧ 3 ≤ s.energy then
        { s with
          crops := s.crops.map fun cr =>
            if cr.id = c.id then { cr with stage := min (cr.stage + 1) 3 }
            else cr
          energy := s.energy - 3 }
      else s := by
  unfold handleCropClick
  rw [if_neg (fun h => by rw [htool] at h; exact absurd h.1 (by decide))]
  by_cases hc : c.stage < 3 ∧ 3 ≤ s.energy
  · rw [if_pos ⟨htool, hc⟩, if_pos hc]
  · rw [if_neg (fun h => hc h.2), if_neg hc]

/-- With the hoe or seed tool selected, a crop click is a no-op. -/
lemma cropClick_other (s : GameState) (c : CropData)
    (htool : s.selectedTool = Tool.hoe ∨ s.selectedTool = Tool.seed) :
    handleCropClick s c = s := by
  unfold handleCropClick
  rcases htool with htool | htool <;>
    rw [if_neg (fun h => by rw [htool] at h; exact absurd h.1 (by decide)),
      if_neg (fun h => by rw [htool] at h; exact absurd h.1 (by decide))]

/-! ## Tilling -/

/-- C3: with the hoe selected, a plot click changes the state iff the plot
is untilled and energy ≥ 5; then it adds exactly the plot's key and costs
5 energy, otherwise it is a no-op; a second till of the same plot is
always a no-op. -/
theorem till_characterization (s : GameState) (x z : Int) (ty ty' : CropType)
    (now now' : Nat) (htool : s.selectedTool = Tool.hoe) :
    (plotKey x z ∉ s.tiledPlots ∧ 5 ≤ s.energy →
      handlePlotClick s x z ty now =
        { s with tiledPlots := s.tiledPlots ++ [plotKey x z],
                 energy := s.energy - 5 }) ∧
    (handlePlotClick s x z ty now = s ↔
      ¬(plotKey x z ∉ s.tiledPlots ∧ 5 ≤ s.energy)) ∧
    handlePlotClick (handlePlotClick s x z ty now) x z ty' now' =
      handlePlotClick s x z ty now := by
  have hb := plotClick_hoe s x z ty now htool
  refine ⟨fun hc => by rw [hb, if_pos hc], ⟨?_, fun hc => by rw [hb, if_neg hc]⟩, ?_⟩
  · intro heq hc
    rw [hb, if_pos hc] at heq
    have hlen := congrArg (fun t => t.tiledPlots.length) heq
    simp at hlen
  · by_cases hc : plotKey x z ∉ s.tiledPlots ∧ 5 ≤ s.energy
    · rw [hb, if_pos hc,
        plotClick_hoe
          { s with tiledPlots := s.tiledPlots ++ [plotKey x z],
                   energy := s.energy - 5 } x z ty' now' htool,
        if_neg (by simp)]
    · rw [hb, if_neg hc, plotClick_hoe s x z ty' now' htool, if_neg hc]

/-- C3 witness: tilling (0,0) from the initial state. -/
theorem till_characterization_witness :
    handlePlotClick initialState 0 0 CropType.carrot 0 =
      { day := 1, season := .Spring, gold := 500, energy := 95,
        selectedTool := .hoe, crops := [], tiledPlots := ["0,0"] } := by
  rw [(till_characterization initialState 0 0 CropType.carrot CropType.carrot
    0 0 rfl).1 (by decide)]
  decide

/-! ## Planting -/

/-- C4: with the seed tool selected, a plot click changes the state iff the
plot is tilled, empty, gold ≥ 20 and energy ≥ 2; then it appends exactly
one stage-0 crop stamped with the current day and costs 20 gold and 2
energy, otherwise it is a no-op.  Concretely, from the initial state,
till(0,0) leaves energy 95 and a following seed(0,0) leaves gold 480,
energy 93 and exactly one crop, at stage 0, whatever crop type and clock
value the environment supplies. -/
theorem seed_characterization (s : GameState) (x z : Int) (ty : CropType)
    (now : Nat) (htool : s.selectedTool = Tool.seed) :
    (plotKey x z ∈ s.tiledPlots ∧ findCropAt s.crops x z = none ∧
        20 ≤ s.gold ∧ 2 ≤ s.energy →
      handlePlotClick s x z ty now =
        { s with
          crops := s.crops ++
            [{ id := cropId x z now, x := x, z := z, type := ty, stage := 0,
               plantedDay := s.day }]
          gold := s.gold - 20
          energy := s.energy - 2 }) ∧
    (handlePlotClick s x z ty now = s ↔
      ¬(plotKey x z ∈ s.tiledPlots ∧ findCropAt s.crops x z = none ∧
        20 ≤ s.gold ∧ 2 ≤ s.energy)) ∧
    (∀ (ty0 : CropType) (now0 : Nat),
      (handlePlotClick initialState 0 0 ty0 now0).energy = 95 ∧
      (handlePlotClick (selectTool (handlePlotClick initialState 0 0 ty0 now0)
          Tool.seed) 0 0 ty0 now0).gold = 480 ∧
      (handlePlotClick (selectTool (handlePlotClick initialState 0 0 ty0 now0)
          Tool.seed) 0 0 ty0 now0).energy = 93 ∧
      (handlePlotClick (selectTool (handlePlotClick initialState 0 0 ty0 now0)
          Tool.seed) 0 0 ty0 now0).crops.map CropData.stage = [0]) := by
  have hb := plotClick_seed s x z ty now htool
  refine ⟨fun hc => by rw [hb, if_pos hc], ⟨?_, fun hc => by rw [hb, if_neg hc]⟩, ?_⟩
  · intro heq hc
    rw [hb, if_pos hc] at heq
    have hlen := congrArg (fun t => t.crops.length) heq
    simp at hlen
  · intro ty0 now0
    have h1 : handlePlotClick initialState 0 0 ty0 now0 =
        { day := 1, season := .Spring, gold := 500, energy := 95,
          selectedTool := .hoe, crops := [], tiledPlots := ["0,0"] } := by
      rw [plotClick_hoe initialState 0 0 ty0 now0 rfl, if_pos (by decide)]
      decide
    rw [h1]
    rw [plotClick_seed _ 0 0 ty0 now0 rfl, if_pos (by decide)]
    refine ⟨rfl, rfl, rfl, rfl⟩

/-- C4 witness: planting (0,0) on the tilled initial state. -/
theorem seed_characterization_witness :
    handlePlotClick
        { day := 1, season := .Spring, gold := 500, energy := 95,
          selectedTool := .seed, crops := [], tiledPlots := ["0,0"] }
        0 0 CropType.carrot 7 =
      { day := 1, season := .Spring, gold := 480, energy := 93,
        selectedTool := .seed,
        crops := [{ id := "0-0-7", x := 0, z := 0, type := CropType.carrot,
                    stage := 0, plantedDay := 1 }],
        tiledPlots := ["0,0"] } := by
  rw [(seed_characterization
    { day := 1, season := .Spring, gold := 500, energy := 95,
      selectedTool := .seed, crops := [], tiledPlots := ["0,0"] }
    0 0 CropType.carrot 7 rfl).1 (by decide)]
  decide

/-! ## Watering -/

/-- C5: a water action — through a plot click that finds the crop, or
through a crop click — changes the state iff the targeted crop has
stage < 3 and energy ≥ 3; then that crop's stage becomes
min(stage+1, 3) = stage+1, energy drops by 3, and every crop with a
different id is kept unchanged; watering a stage-3 crop is a no-op. -/
theorem water_characterization (s : GameState) (c : CropData) (x z : Int)
    (ty : CropType) (now : Nat) (htool : s.selectedTool = Tool.water) :
    (findCropAt s.crops x z = some c →
      (c.stage < 3 ∧ 3 ≤ s.energy →
        handlePlotClick s x z ty now =
          { s with
            crops := s.crops.map fun cr =>
              if cr.id = c.id then { cr with stage := min (cr.stage + 1) 3 }
              else cr
            energy := s.energy - 3 }) ∧
      (handlePlotClick s x z ty now = s ↔ ¬(c.stage < 3 ∧ 3 ≤ s.energy))) ∧
    ((c.stage < 3 ∧ 3 ≤ s.energy →
        handleCropClick s c =
          { s with
            crops := s.crops.map fun cr =>
              if cr.id = c.id then { cr with stage := min (cr.stage + 1) 3 }
              else cr
            energy := s.energy - 3 }) ∧
      (handleCropClick s c = s ↔ ¬(c.stage < 3 ∧ 3 ≤ s.energy)) ∧
      (c.stage = 3 → handleCropClick s c = s) ∧
      (c.stage < 3 → min (c.stage + 1) 3 = c.stage + 1) ∧
      (c.stage < 3 ∧ 3 ≤ s.energy →
        ∀ c' ∈ s.crops, c'.id ≠ c.id → c' ∈ (handleCropClick s c).crops) ∧
      (c.stage < 3 ∧ 3 ≤ s.energy → c ∈ s.crops →
        { c with stage := c.stage + 1 } ∈ (handleCropClick s c).crops)) := by
  have hcb := cropClick_water s c htool
  have henergy : ∀ t : GameState, t =
      { s with
        crops := s.crops.map fun cr =>
          if cr.id = c.id then { cr with stage := min (cr.stage + 1) 3 }
          else cr
        energy := s.energy - 3 } → 3 ≤ s.energy → t ≠ s := by
    intro t ht _ heq
    rw [ht] at heq
    have := congrArg GameState.energy heq
    simp at this
  constructor
  · intro hfind
    have hpb := plotClick_water s x z ty now c htool hfind
    refine ⟨fun hc => by rw [hpb, if_pos hc], ?_, ?_⟩
    · intro heq hc
      rw [hpb, if_pos hc] at heq
      exact henergy _ rfl hc.2 heq
    · intro hc
      rw [hpb, if_neg hc]
  · refine ⟨fun hc => by rw [hcb, if_pos hc], ⟨?_, ?_⟩, ?_, ?_, ?_, ?_⟩
    · intro heq hc
      rw [hcb, if_pos hc] at heq
      exact henergy _ rfl hc.2 heq
    · intro hc
      rw [hcb, if_neg hc]
    · intro h3
      rw [hcb, if_neg (by omega)]
    · intro h3
      omega
    · intro hc c' hmem hid
      rw [hcb, if_pos hc]
      exact List.mem_map.mpr ⟨c', hmem, by rw [if_neg hid]⟩
    · intro hc hmem
      rw [hcb, if_pos hc]
      exact List.mem_map.mpr ⟨c, hmem, by
        rw [if_pos rfl]
        have : min (c.stage + 1) 3 = c.stage + 1 := by omega
        rw [this]⟩

/-- A stage-0 crop used to exercise the watering rules. -/
def waterDemoCrop : CropData :=
  { id := "0-0-7", x := 0, z := 0, type := CropType.carrot, stage := 0,
    plantedDay := 1 }

/-- A state holding `waterDemoCrop` with the water tool selected. -/
def waterDemoState : GameState :=
  { day := 1, season := .Spring, gold := 480, energy := 93,
    selectedTool := .water, crops := [waterDemoCrop], tiledPlots := ["0,0"] }

/-- C5 witness: watering the stage-0 crop bumps it to stage 1 and costs
3 energy. -/
theorem water_characterization_witness :
    handleCropClick waterDemoState waterDemoCrop =
      { day := 1, season := .Spring, gold := 480, energy := 90,
        selectedTool := .water,
        crops := [{ id := "0-0-7", x := 0, z := 0, type := CropType.carrot,
                    stage := 1, plantedDay := 1 }],
        tiledPlots := ["0,0"] } := by
  rw [(water_characterization waterDemoState waterDemoCrop 0 0
    CropType.carrot 7 rfl).2.1 (by decide)]
  decide

/-! ## The two water entry points agree -/

/-- C9: when the water tool is selected and the plot click finds crop `c`
at (x,z), clicking the plot and clicking the crop produce identical
states, refusals included. -/
theorem water_entry_equivalence (s : GameState) (x z : Int) (c : CropData)
    (ty : CropType) (now : Nat) (htool : s.selectedTool = Tool.water)
    (hfind : findCropAt s.crops x z = some c) :
    handlePlotClick s x z ty now = handleCropClick s c := by
  rw [plotClick_water s x z ty now c htool hfind, cropClick_water s c htool]

/-- C9 witness: both entry points on the demo state. -/
theorem water_entry_equivalence_witness :
    handlePlotClick waterDemoState 0 0 CropType.carrot 7 =
      handleCropClick waterDemoState waterDemoCrop :=
  water_entry_equivalence waterDemoState 0 0 waterDemoCrop CropType.carrot 7
    rfl (by decide)

/-! ## Harvesting -/

/-- Removing the unique crop with a given id from a list shortens it by
exactly one. -/
lemma filter_ne_id_length (l : List CropData) (c : CropData)
    (huniq : ∀ c' ∈ l, c'.id = c.id → c' = c) (hcount : l.count c = 1) :
    (l.filter fun cr => cr.id != c.id).length + 1 = l.length := by
  induction l with
  | nil => simp at hcount
  | cons a t ih =>
    rw [List.filter_cons]
    by_cases hac : a = c
    · subst hac
      have hcz : t.count a = 0 := by
        rw [List.count_cons_self] at hcount
        omega
      have hnotmem : a ∉ t := List.count_eq_zero.mp hcz
      have hfil : t.filter (fun cr => cr.id != a.id) = t := by
        apply List.filter_eq_self.mpr
        intro c' hc'
        have hne : c'.id ≠ a.id := fun h =>
          hnotmem (huniq c' (List.mem_cons_of_mem _ hc') h ▸ hc')
        simpa using hne
      simp [hfil]
    · have ha_ne : a.id ≠ c.id := fun h => hac (huniq a (List.mem_cons_self a t) h)
      have hcount' : t.count c = 1 := by
        rw [List.count_cons] at hcount
        simp [hac] at hcount
        exact hcount
      have ihh := ih (fun c' hc' h => huniq c' (List.mem_cons_of_mem _ hc') h) hcount'
      simp only [ha_ne, bne_iff_ne, ne_eq, not_false_eq_true, if_true,
        List.length_cons]
      omega

/-- C6: with the harvest tool selected, a crop click changes the state iff
the crop's stage is 3; then the crop is removed and gold grows by exactly
the fixed price of its type (carrot 35, tomato 60, corn 50, turnip 40),
every other crop being kept; harvesting a non-ready crop is a no-op. -/
theorem harvest_characterization (s : GameState) (c : CropData)
    (htool : s.selectedTool = Tool.harvest) :
    (c.stage = 3 →
      handleCropClick s c =
        { s with crops := s.crops.filter fun cr => cr.id != c.id,
                 gold := s.gold + CROP_PRICES c.type } ∧
      (handleCropClick s c).gold = s.gold + CROP_PRICES c.type ∧
      c ∉ (handleCropClick s c).crops ∧
      (∀ c' ∈ s.crops, c'.id ≠ c.id → c' ∈ (handleCropClick s c).crops) ∧
      ((∀ c' ∈ s.crops, c'.id = c.id → c' = c) → s.crops.count c = 1 →
        (handleCropClick s c).crops.length + 1 = s.crops.length)) ∧
    (handleCropClick s c = s ↔ c.stage ≠ 3) ∧
    CROP_PRICES CropType.carrot = 35 ∧ CROP_PRICES CropType.tomato = 60 ∧
    CROP_PRICES CropType.corn = 50 ∧ CROP_PRICES CropType.turnip = 40 := by
  have hb := cropClick_harvest s c htool
  have hpos : 0 < CROP_PRICES c.type := by cases c.type <;> decide
  refine ⟨?_, ⟨?_, ?_⟩, by decide, by decide, by decide, by decide⟩
  · intro h3
    rw [hb, if_pos h3]
    refine ⟨rfl, rfl, ?_, ?_, ?_⟩
    · intro hmem
      have := (List.mem_filter.mp hmem).2
      simp at this
    · intro c' hmem hne
      exact List.mem_filter.mpr ⟨hmem, by simpa using hne⟩
    · intro huniq hcount
      exact filter_ne_id_length s.crops c huniq hcount
  · intro heq h3
    rw [hb, if_pos h3] at heq
    have := congrArg GameState.gold heq
    simp at this
    omega
  · intro h3
    rw [hb, if_neg h3]

/-- A stage-3 tomato used to exercise the harvest rules. -/
def harvestDemoCrop : CropData :=
  { id := "1-1-9", x := 1, z := 1, type := CropType.tomato, stage := 3,
    plantedDay := 2 }

/-- A state holding `harvestDemoCrop` with the harvest tool selected. -/
def harvestDemoState : GameState :=
  { day := 5, season := .Spring, gold := 480, energy := 40,
    selectedTool := .harvest, crops := [harvestDemoCrop],
    tiledPlots := ["1,1"] }

/-- C6 witness: harvesting the ready tomato removes it and pays 60 gold. -/
theorem harvest_characterization_witness :
    handleCropClick harvestDemoState harvestDemoCrop =
      { day := 5, season := .Spring, gold := 540, energy := 40,
        selectedTool := .harvest, crops := [], tiledPlots := ["1,1"] } := by
  rw [((harvest_characterization harvestDemoState harvestDemoCrop rfl).1
    (by decide)).1]
  decide

/-- C10: a harvest click never touches energy, day, season, tilled plots or
the selected tool — whatever the current energy and gold are — and on a
stage-3 crop it adds exactly the crop's price to gold and keeps every crop
with a different id. -/
theorem harvest_frame (s : GameState) (c : CropData)
    (htool : s.selectedTool = Tool.harvest) :
    (handleCropClick s c).energy = s.energy ∧
    (handleCropClick s c).day = s.day ∧
    (handleCropClick s c).season = s.season ∧
    (handleCropClick s c).tiledPlots = s.tiledPlots ∧
    (handleCropClick s c).selectedTool = s.selectedTool ∧
    (c.stage = 3 →
      (handleCropClick s c).gold = s.gold + CROP_PRICES c.type ∧
      ∀ c' ∈ s.crops, c'.id ≠ c.id → c' ∈ (handleCropClick s c).crops) := by
  have hb := cropClick_harvest s c htool
  rw [hb]
  by_cases h3 : c.stage = 3
  · rw [if_pos h3]
    exact ⟨rfl, rfl, rfl, rfl, rfl, fun _ =>
      ⟨rfl, fun c' hmem hne => List.mem_filter.mpr ⟨hmem, by simpa using hne⟩⟩⟩
  · rw [if_neg h3]
    exact ⟨rfl, rfl, rfl, rfl, rfl, fun h => absurd h h3⟩

/-- A ready corn crop owned by a player with zero gold and zero energy. -/
def brokeCrop : CropData :=
  { id := "2-3-5", x := 2, z := 3, type := CropType.corn, stage := 3,
    plantedDay := 8 }

/-- A state with energy 0 and gold 0 holding `brokeCrop`, harvest tool
selected. -/
def brokeState : GameState :=
  { day := 9, season := .Winter, gold := 0, energy := 0,
    selectedTool := .harvest, crops := [brokeCrop], tiledPlots := ["2,3"] }

/-- C10 witness: harvesting with 0 energy still succeeds, pays 50 gold and
leaves energy at 0. -/
theorem harvest_frame_witness :
    (handleCropClick brokeState brokeCrop).energy = 0 ∧
    (handleCropClick brokeState brokeCrop).gold = 50 := by
  have h := harvest_frame brokeState brokeCrop rfl
  exact ⟨h.1, by rw [(h.2.2.2.2.2 rfl).1]; decide⟩

/-! ## Resource invariant -/

/-- C1: in every state reachable from the initial one, gold is nonnegative
and energy stays within [0, 100]; no operation ever drives gold or energy
negative. -/
theorem goldEnergy_invariant {s : GameState} (h : Reachable s) :
    0 ≤ s.gold ∧ 0 ≤ s.energy ∧ s.energy ≤ 100 := by
  induction h with
  | init => exact ⟨by decide, by decide, by decide⟩
  | tool t _ ih => exact ih
  | plot x z ty now _ ih =>
    obtain ⟨hg, he0, he1⟩ := ih
    unfold handlePlotClick
    split_ifs with h1 h2
    · obtain ⟨-, -, h5⟩ := h1
      refine ⟨?_, ?_, ?_⟩ <;> dsimp only <;> omega
    · obtain ⟨-, -, -, h20, h2e⟩ := h2
      refine ⟨?_, ?_, ?_⟩ <;> dsimp only <;> omega
    · split
      · rename_i ec heq
        split_ifs with h3
        · obtain ⟨-, -, h3e⟩ := h3
          refine ⟨?_, ?_, ?_⟩ <;> dsimp only <;> omega
        · exact ⟨hg, he0, he1⟩
      · exact ⟨hg, he0, he1⟩
  | crop c _ hmem ih =>
    obtain ⟨hg, he0, he1⟩ := ih
    have hpos : 0 ≤ CROP_PRICES c.type := by cases c.type <;> decide
    unfold handleCropClick
    split_ifs with h1 h2
    · refine ⟨?_, ?_, ?_⟩ <;> dsimp only <;> omega
    · obtain ⟨-, -, h3e⟩ := h2
      refine ⟨?_, ?_, ?_⟩ <;> dsimp only <;> omega
    · exact ⟨hg, he0, he1⟩
  | sleep _ ih =>
    refine ⟨ih.1, ?_, ?_⟩ <;> dsimp only [nextDay] <;> omega

/-- C1 witness: the bounds hold after the first plot click. -/
theorem goldEnergy_invariant_witness :
    0 ≤ (handlePlotClick initialState 0 0 CropType.carrot 0).gold ∧
    0 ≤ (handlePlotClick initialState 0 0 CropType.carrot 0).energy ∧
    (handlePlotClick initialState 0 0 CropType.carrot 0).energy ≤ 100 :=
  goldEnergy_invariant (Reachable.plot 0 0 CropType.carrot 0 Reachable.init)

/-! ## Structural invariants of reachable states -/

/-- The watering update never moves a crop. -/
lemma waterMap_x (i : String) (a : CropData) :
    ((if a.id = i then { a with stage := min (a.stage + 1) 3 }
      else a) : CropData).x = a.x := by
  split <;> rfl

/-- The watering update never moves a crop. -/
lemma waterMap_z (i : String) (a : CropData) :
    ((if a.id = i then { a with stage := min (a.stage + 1) 3 }
      else a) : CropData).z = a.z := by
  split <;> rfl

/-- The watering update keeps crops on distinct plots and on tilled
plots. -/
lemma waterMapped_inv (crops : List CropData) (tiled : List String)
    (i : String)
    (hpw : crops.Pairwise fun a b => ¬(a.x = b.x ∧ a.z = b.z))
    (hkeys : ∀ c ∈ crops, plotKey c.x c.z ∈ tiled) :
    (crops.map fun cr =>
        if cr.id = i then { cr with stage := min (cr.stage + 1) 3 }
        else cr).Pairwise (fun a b => ¬(a.x = b.x ∧ a.z = b.z)) ∧
    ∀ c ∈ crops.map fun cr =>
        if cr.id = i then { cr with stage := min (cr.stage + 1) 3 }
        else cr, plotKey c.x c.z ∈ tiled := by
  constructor
  · rw [List.pairwise_map]
    refine hpw.imp ?_
    intro a b hab hcontr
    rw [waterMap_x, waterMap_x, waterMap_z, waterMap_z] at hcontr
    exact hab hcontr
  · intro c hc
    rw [List.mem_map] at hc
    obtain ⟨a, ha, rfl⟩ := hc
    rw [waterMap_x, waterMap_z]
    exact hkeys a ha

/-- Inductive invariant: in every reachable state the crops sit on
pairwise-distinct plots, each of which carries a tilled-plot key. -/
lemma reachable_structure {s : GameState} (h : Reachable s) :
    s.crops.Pairwise (fun a b => ¬(a.x = b.x ∧ a.z = b.z)) ∧
    ∀ c ∈ s.crops, plotKey c.x c.z ∈ s.tiledPlots := by
  induction h with
  | init => exact ⟨by simp [initialState], by simp [initialState]⟩
  | tool t _ ih => exact ih
  | sleep _ ih => exact ih
  | plot x z ty now _ ih =>
    obtain ⟨hpw, hkeys⟩ := ih
    unfold handlePlotClick
    split_ifs with h1 h2
    · exact ⟨hpw, fun c hc => List.mem_append_left _ (hkeys c hc)⟩
    · obtain ⟨-, hkey, hnone, -, -⟩ := h2
      dsimp only
      constructor
      · rw [List.pairwise_append]
        refine ⟨hpw, by simp, ?_⟩
        intro a ha b hb
        rw [List.mem_singleton] at hb
        subst hb
        rintro ⟨hax, haz⟩
        have hfa := List.find?_eq_none.mp hnone a ha
        simp only [Bool.and_eq_true, beq_iff_eq, not_and] at hfa
        exact hfa hax haz
      · intro c hc
        rcases List.mem_append.mp hc with hc | hc
        · exact hkeys c hc
        · rw [List.mem_singleton] at hc
          subst hc
          exact hkey
    · split
      · rename_i ec heq
        split_ifs with h3
        · exact waterMapped_inv _ _ ec.id hpw hkeys
        · exact ⟨hpw, hkeys⟩
      · exact ⟨hpw, hkeys⟩
  | crop c _ hmem ih =>
    obtain ⟨hpw, hkeys⟩ := ih
    unfold handleCropClick
    split_ifs with h1 h2
    · exact ⟨List.Pairwise.sublist (List.filter_sublist _) hpw,
        fun c' hc' => hkeys c' (List.mem_of_mem_filter hc')⟩
    · exact waterMapped_inv _ _ c.id hpw hkeys
    · exact ⟨hpw, hkeys⟩

/-- No operation removes a tilled-plot key. -/
lemma plotClick_tiled_mono (s : GameState) (x z : Int) (ty : CropType)
    (now : Nat) : s.tiledPlots ⊆ (handlePlotClick s x z ty now).tiledPlots := by
  unfold handlePlotClick
  split_ifs with h1 h2
  · exact fun a ha => List.mem_append_left _ ha
  · exact fun a ha => ha
  · split
    · rename_i ec heq
      split_ifs with h3
      · exact fun a ha => ha
      · exact fun a ha => ha
    · exact fun a ha => ha

/-- No crop click removes a tilled-plot key. -/
lemma cropClick_tiled_mono (s : GameState) (c : CropData) :
    s.tiledPlots ⊆ (handleCropClick s c).tiledPlots := by
  unfold handleCropClick
  split_ifs with h1 h2
  · exact fun a ha => ha
  · exact fun a ha => ha
  · exact fun a ha => ha

/-- C8: every reachable state keeps at most one crop per plot coordinate
and every crop on a plot whose key is tilled; the tilled-plot set only
ever grows — no operation un-tills a plot. -/
theorem structure_invariant :
    (∀ s : GameState, Reachable s →
      s.crops.Pairwise (fun a b => ¬(a.x = b.x ∧ a.z = b.z)) ∧
      ∀ c ∈ s.crops, plotKey c.x c.z ∈ s.tiledPlots) ∧
    (∀ (s : GameState) (x z : Int) (ty : CropType) (now : Nat),
      s.tiledPlots ⊆ (handlePlotClick s x z ty now).tiledPlots) ∧
    (∀ (s : GameState) (c : CropData),
      s.tiledPlots ⊆ (handleCropClick s c).tiledPlots) ∧
    (∀ (s : GameState) (t : Tool),
      s.tiledPlots ⊆ (selectTool s t).tiledPlots) ∧
    (∀ s : GameState, s.tiledPlots ⊆ (nextDay s).tiledPlots) :=
  ⟨fun _ h => reachable_structure h, plotClick_tiled_mono, cropClick_tiled_mono,
    fun _ _ _ ha => ha, fun _ _ ha => ha⟩

/-- C8 witness: the invariant evaluated on the reachable state holding the
first planted crop. -/
theorem structure_invariant_witness :
    runPlant1.crops.Pairwise (fun a b => ¬(a.x = b.x ∧ a.z = b.z)) ∧
    plotKey 0 0 ∈ runPlant1.tiledPlots := by
  have hr : Reachable runPlant1 :=
    Reachable.plot 0 0 CropType.carrot 7
      (Reachable.tool Tool.seed
        (Reachable.plot 0 0 CropType.carrot 7 Reachable.init))
  have h := structure_invariant.1 runPlant1 hr
  exact ⟨h.1, h.2
    { id := "0-0-7", x := 0, z := 0, type := CropType.carrot, stage := 0,
      plantedDay := 1 } (by decide)⟩
